import Mathlib

/-
Shallow embedding of the flight-dynamics core of src/rocket-aero.py:
the Rocket class (rotation model, aerodynamic model, propulsion model,
integration step, ground collision, telemetry).  Real numbers model the
Python floats; vectors are explicit 3-component records mirroring the
numpy arrays of the source.  The purely visual collaborators
(ParticleSystem, SmokeTrail, all drawing code) never write any field of
the Rocket and are omitted.
-/

noncomputable section

/-- A 3-component vector, mirroring the numpy arrays of the source. -/
structure Vec3 where
  x : ℝ
  y : ℝ
  z : ℝ

/-- The zero vector np.array([0.0, 0.0, 0.0]). -/
def Vec3.zero : Vec3 := ⟨0, 0, 0⟩

/-- Componentwise vector addition. -/
def Vec3.add (a b : Vec3) : Vec3 := ⟨a.x + b.x, a.y + b.y, a.z + b.z⟩

/-- Componentwise vector negation. -/
def Vec3.neg (a : Vec3) : Vec3 := ⟨-a.x, -a.y, -a.z⟩

/-- Scalar times vector. -/
def Vec3.smul (c : ℝ) (a : Vec3) : Vec3 := ⟨c * a.x, c * a.y, c * a.z⟩

/-- Dot product (np.dot). -/
def Vec3.dot (a b : Vec3) : ℝ := a.x * b.x + a.y * b.y + a.z * b.z

/-- Cross product (np.cross). -/
def Vec3.cross (a b : Vec3) : Vec3 :=
  ⟨a.y * b.z - a.z * b.y, a.z * b.x - a.x * b.z, a.x * b.y - a.y * b.x⟩

/-- Euclidean norm of a 3-vector (np.linalg.norm). -/
def Vec3.norm (a : Vec3) : ℝ := Real.sqrt (Vec3.dot a a)

/-- A 3x3 matrix given by its rows, mirroring the numpy 3x3 arrays. -/
structure Mat3 where
  r0 : Vec3
  r1 : Vec3
  r2 : Vec3

/-- First column of a matrix. -/
def Mat3.col0 (M : Mat3) : Vec3 := ⟨M.r0.x, M.r1.x, M.r2.x⟩

/-- Second column of a matrix. -/
def Mat3.col1 (M : Mat3) : Vec3 := ⟨M.r0.y, M.r1.y, M.r2.y⟩

/-- Third column of a matrix. -/
def Mat3.col2 (M : Mat3) : Vec3 := ⟨M.r0.z, M.r1.z, M.r2.z⟩

/-- Matrix-matrix product (the numpy @ operator on 3x3 arrays). -/
def Mat3.mul (A B : Mat3) : Mat3 :=
  ⟨⟨Vec3.dot A.r0 (Mat3.col0 B), Vec3.dot A.r0 (Mat3.col1 B), Vec3.dot A.r0 (Mat3.col2 B)⟩,
   ⟨Vec3.dot A.r1 (Mat3.col0 B), Vec3.dot A.r1 (Mat3.col1 B), Vec3.dot A.r1 (Mat3.col2 B)⟩,
   ⟨Vec3.dot A.r2 (Mat3.col0 B), Vec3.dot A.r2 (Mat3.col1 B), Vec3.dot A.r2 (Mat3.col2 B)⟩⟩

/-- Matrix-vector product (the numpy @ operator on a 3x3 array and a 3-vector). -/
def Mat3.mulVec (M : Mat3) (v : Vec3) : Vec3 :=
  ⟨Vec3.dot M.r0 v, Vec3.dot M.r1 v, Vec3.dot M.r2 v⟩

/-- Degrees to radians (math.radians). -/
def radians (d : ℝ) : ℝ := d * Real.pi / 180

/-- Radians to degrees (math.degrees). -/
def degrees (r : ℝ) : ℝ := r * 180 / Real.pi

/-- Scalar np.clip. -/
def clip (x lo hi : ℝ) : ℝ := max lo (min x hi)

/-- Python float modulo with a positive divisor: x - y * floor (x / y). -/
def pymod (x y : ℝ) : ℝ := x - y * (⌊x / y⌋ : ℤ)

/-- The mutable numeric fields of the Rocket instance (the flight state).
The visual-only fields (trail, particles, orientation_matrix, which is
written once and never read) are omitted. -/
structure FlightState where
  mass : ℝ
  fuel_mass : ℝ
  dry_mass : ℝ
  velocity : Vec3
  position : Vec3
  angular_velocity : Vec3
  thrust : ℝ
  max_thrust : ℝ
  drag_coefficient : ℝ
  reference_area : ℝ
  engine_temperature : ℝ
  structural_stress : ℝ
  fuel_consumption_rate : ℝ
  max_q : ℝ
  pitch : ℝ
  yaw : ℝ
  roll : ℝ

/-- The defaults set by Rocket.__init__. -/
def initialState : FlightState :=
  { mass := 5000.0,
    fuel_mass := 3000.0,
    dry_mass := 2000.0,
    velocity := ⟨0.0, 0.0, 0.0⟩,
    position := ⟨0.0, 500.0, 0.0⟩,
    angular_velocity := ⟨0.0, 0.0, 0.0⟩,
    thrust := 75000.0,
    max_thrust := 200000.0,
    drag_coefficient := 0.45,
    reference_area := 10.0,
    engine_temperature := 300.0,
    structural_stress := 0.0,
    fuel_consumption_rate := 5.0,
    max_q := 0.0,
    pitch := 0.0,
    yaw := 0.0,
    roll := 0.0 }

/-- Rocket.get_rotation_matrix: Ry(yaw) @ Rx(pitch) @ Rz(roll). -/
def get_rotation_matrix (s : FlightState) : Mat3 :=
  let cos_p := Real.cos (radians s.pitch)
  let sin_p := Real.sin (radians s.pitch)
  let cos_y := Real.cos (radians s.yaw)
  let sin_y := Real.sin (radians s.yaw)
  let cos_r := Real.cos (radians s.roll)
  let sin_r := Real.sin (radians s.roll)
  let Rx : Mat3 := ⟨⟨1, 0, 0⟩, ⟨0, cos_p, -sin_p⟩, ⟨0, sin_p, cos_p⟩⟩
  let Ry : Mat3 := ⟨⟨cos_y, 0, sin_y⟩, ⟨0, 1, 0⟩, ⟨-sin_y, 0, cos_y⟩⟩
  let Rz : Mat3 := ⟨⟨cos_r, -sin_r, 0⟩, ⟨sin_r, cos_r, 0⟩, ⟨0, 0, 1⟩⟩
  Mat3.mul (Mat3.mul Ry Rx) Rz

/-- Rocket.get_thrust_vector: the rotation matrix applied to the
body-local thrust axis (0, 1, 0). -/
def get_thrust_vector (s : FlightState) : Vec3 :=
  Mat3.mulVec (get_rotation_matrix s) ⟨0.0, 1.0, 0.0⟩

/-- Rocket.calculate_drag. -/
def calculate_drag (s : FlightState) (air_density : ℝ) : Vec3 :=
  let v_magnitude := Vec3.norm s.velocity
  if v_magnitude > 0.1 then
    let drag_force_magnitude :=
      0.5 * air_density * v_magnitude ^ 2 * s.drag_coefficient * s.reference_area
    let drag_direction := Vec3.smul (1 / v_magnitude) (Vec3.neg s.velocity)
    Vec3.smul drag_force_magnitude drag_direction
  else Vec3.zero

/-- Rocket.calculate_lift. -/
def calculate_lift (s : FlightState) (air_density : ℝ) : Vec3 :=
  let v_magnitude := Vec3.norm s.velocity
  if v_magnitude > 1.0 then
    let thrust_dir := get_thrust_vector s
    let vel_normalized := Vec3.smul (1 / v_magnitude) s.velocity
    let cross_product := Vec3.cross vel_normalized thrust_dir
    let cross_magnitude := Vec3.norm cross_product
    if cross_magnitude > 0.01 then
      let angle_of_attack := Real.arcsin (min cross_magnitude 1.0)
      let lift_coefficient := 2 * Real.pi * Real.sin angle_of_attack
      let lift_magnitude :=
        0.5 * air_density * v_magnitude ^ 2 * |lift_coefficient| * s.reference_area
      let lift_direction := Vec3.cross s.velocity cross_product
      let lift_dir_magnitude := Vec3.norm lift_direction
      if lift_dir_magnitude > 0 then
        Vec3.smul lift_magnitude (Vec3.smul (1 / lift_dir_magnitude) lift_direction)
      else Vec3.zero
    else Vec3.zero
  else Vec3.zero

/-- Rocket.calculate_dynamic_pressure. -/
def calculate_dynamic_pressure (s : FlightState) (air_density : ℝ) : ℝ :=
  0.5 * air_density * (Vec3.norm s.velocity) ^ 2

/-- Rocket.get_angle_of_attack. -/
def get_angle_of_attack (s : FlightState) : ℝ :=
  let v_magnitude := Vec3.norm s.velocity
  if v_magnitude > 0.1 then
    let thrust_dir := get_thrust_vector s
    let vel_normalized := Vec3.smul (1 / v_magnitude) s.velocity
    let dot_product := Vec3.dot thrust_dir vel_normalized
    degrees (Real.arccos (clip dot_product (-1.0) 1.0))
  else 0

/-- The telemetry record returned by Rocket.get_telemetry, with one named
field per key of the source dictionary. -/
structure Telemetry where
  drag : ℝ
  lift : ℝ
  thrust : ℝ
  velocity : ℝ
  altitude : ℝ
  aoa : ℝ
  dynamic_pressure : ℝ
  max_q : ℝ
  g_force : ℝ
  temperature : ℝ
  fuel : ℝ
  twr : ℝ
  mach : ℝ
  thrust_direction : Vec3

/-- Rocket.get_telemetry: drag, lift and dynamic pressure are computed at
the fixed reference density 1.225, as in the source. -/
def get_telemetry (s : FlightState) : Telemetry :=
  let v_magnitude := Vec3.norm s.velocity
  let mach_number := v_magnitude / 343.0
  let thrust_direction := get_thrust_vector s
  let drag := calculate_drag s 1.225
  let lift := calculate_lift s 1.225
  let thrust_vector := Vec3.smul s.thrust thrust_direction
  let aoa := get_angle_of_attack s
  let dynamic_pressure := calculate_dynamic_pressure s 1.225
  let twr := if s.mass > 0 then s.thrust / (s.mass * 9.81) else 0
  { drag := Vec3.norm drag,
    lift := Vec3.norm lift,
    thrust := Vec3.norm thrust_vector,
    velocity := v_magnitude,
    altitude := s.position.y,
    aoa := aoa,
    dynamic_pressure := dynamic_pressure,
    max_q := s.max_q,
    g_force := s.structural_stress,
    temperature := s.engine_temperature,
    fuel := s.fuel_mass,
    twr := twr,
    mach := mach_number,
    thrust_direction := thrust_direction }

/-- The body of Rocket.update from the fuel/propulsion block through the
semi-implicit Euler velocity and position updates, before the ground
collision block. -/
def integrate (s : FlightState) (dt air_density gravity : ℝ) : FlightState :=
  let s1 :=
    if s.thrust > 0 ∧ s.fuel_mass > 0 then
      let fuel_used := s.fuel_consumption_rate * dt
      let new_fuel := max 0 (s.fuel_mass - fuel_used)
      { s with
        fuel_mass := new_fuel,
        mass := s.dry_mass + new_fuel,
        thrust := if new_fuel ≤ 0 then 0 else s.thrust }
    else
      { s with mass := s.dry_mass + s.fuel_mass }
  let s2 :=
    { s1 with
      pitch := pymod (s1.pitch + s1.angular_velocity.x * dt) 360,
      yaw := pymod (s1.yaw + s1.angular_velocity.y * dt) 360,
      roll := pymod (s1.roll + s1.angular_velocity.z * dt) 360,
      angular_velocity := Vec3.smul 0.92 s1.angular_velocity }
  let thrust_direction := get_thrust_vector s2
  let drag := calculate_drag s2 air_density
  let lift := calculate_lift s2 air_density
  let thrust_vector := Vec3.smul s2.thrust thrust_direction
  let gravity_force : Vec3 := ⟨0, -gravity * s2.mass, 0⟩
  let total_force := Vec3.add (Vec3.add (Vec3.add thrust_vector drag) lift) gravity_force
  let acceleration :=
    if s2.mass > 0 then Vec3.smul (1 / s2.mass) total_force else Vec3.zero
  let dynamic_pressure := calculate_dynamic_pressure s2 air_density
  let new_max_q := max s2.max_q dynamic_pressure
  let force_magnitude := Vec3.norm total_force
  let new_stress := if s2.mass > 0 then force_magnitude / s2.mass / 9.81 else 0
  let new_temp := 300 + s2.thrust / s2.max_thrust * 2000
  let new_velocity := Vec3.add s2.velocity (Vec3.smul dt acceleration)
  let new_position := Vec3.add s2.position (Vec3.smul dt new_velocity)
  { s2 with
    max_q := new_max_q,
    structural_stress := new_stress,
    engine_temperature := new_temp,
    velocity := new_velocity,
    position := new_position }

/-- The ground-collision block at the end of Rocket.update. -/
def collide (s : FlightState) : FlightState :=
  if s.position.y < 0 then
    let s1 := { s with position := ⟨s.position.x, 0, s.position.z⟩ }
    if s.velocity.y < 0 then
      { s1 with velocity := ⟨s.velocity.x * 0.7, -s.velocity.y * 0.3, s.velocity.z * 0.7⟩ }
    else s1
  else s

/-- Rocket.update: the dt guard, then propulsion, orientation, forces,
integration and collision (via integrate and collide), returning the new
state together with the telemetry of the post-update state. -/
def update (s : FlightState) (dt air_density gravity : ℝ) : FlightState × Telemetry :=
  if dt ≤ 0 then (s, get_telemetry s)
  else
    let s1 := collide (integrate s dt air_density gravity)
    (s1, get_telemetry s1)

/-- n successive calls to Rocket.update with the same dt and environment,
keeping only the state. -/
def stepN (dt air_density gravity : ℝ) : ℕ → FlightState → FlightState
  | 0, s => s
  | n + 1, s => (update (stepN dt air_density gravity n s) dt air_density gravity).1

/-- The dot product of a vector with itself is nonnegative. -/
theorem Vec3.dot_self_nonneg (a : Vec3) : 0 ≤ Vec3.dot a a := by
  unfold Vec3.dot
  have hx := mul_self_nonneg a.x
  have hy := mul_self_nonneg a.y
  have hz := mul_self_nonneg a.z
  linarith

/-- The square of the norm recovers the self dot product. -/
theorem Vec3.norm_sq (a : Vec3) : (Vec3.norm a) ^ 2 = Vec3.dot a a := by
  unfold Vec3.norm; exact Real.sq_sqrt (Vec3.dot_self_nonneg a)

/-- The norm of the zero vector is zero. -/
theorem Vec3.norm_zero_vec : Vec3.norm ⟨0, 0, 0⟩ = 0 := by
  unfold Vec3.norm Vec3.dot; norm_num

/-- The collision block does not change the thrust. -/
theorem collide_thrust (s : FlightState) : (collide s).thrust = s.thrust := by
  unfold collide; split_ifs <;> rfl

/-- The collision block does not change the fuel mass. -/
theorem collide_fuel_mass (s : FlightState) : (collide s).fuel_mass = s.fuel_mass := by
  unfold collide; split_ifs <;> rfl

/-- The collision block does not change the total mass. -/
theorem collide_mass (s : FlightState) : (collide s).mass = s.mass := by
  unfold collide; split_ifs <;> rfl

/-- The collision block does not change the dry mass. -/
theorem collide_dry_mass (s : FlightState) : (collide s).dry_mass = s.dry_mass := by
  unfold collide; split_ifs <;> rfl

/-- The collision block does not change max_q. -/
theorem collide_max_q (s : FlightState) : (collide s).max_q = s.max_q := by
  unfold collide; split_ifs <;> rfl

/-- The collision block does not change max_thrust. -/
theorem collide_max_thrust (s : FlightState) : (collide s).max_thrust = s.max_thrust := by
  unfold collide; split_ifs <;> rfl

/-- When the post-Euler height is nonnegative the collision block is the identity. -/
theorem collide_of_nonneg (s : FlightState) (h : 0 ≤ s.position.y) : collide s = s := by
  unfold collide; rw [if_neg (not_lt.mpr h)]

/-- The collision block never changes the velocity when the vertical
velocity is nonnegative. -/
theorem collide_velocity_of_nonneg (s : FlightState) (h : 0 ≤ s.velocity.y) :
    (collide s).velocity = s.velocity := by
  unfold collide
  split_ifs with h1 h2
  · exact absurd h2 (not_lt.mpr h)
  · rfl
  · rfl

/-- For a positive time step, update is collide after integrate. -/
theorem update_fst (s : FlightState) (dt ρ g : ℝ) (h : 0 < dt) :
    (update s dt ρ g).1 = collide (integrate s dt ρ g) := by
  unfold update; rw [if_neg (not_le.mpr h)]

/-- The returned telemetry is always the telemetry of the returned state. -/
theorem update_snd (s : FlightState) (dt ρ g : ℝ) :
    (update s dt ρ g).2 = get_telemetry (update s dt ρ g).1 := by
  unfold update; split_ifs <;> rfl

/-- The thrust after integrate: zeroed exactly when the burn branch ran
and the clamped fuel reached zero. -/
theorem integrate_thrust (s : FlightState) (dt ρ g : ℝ) :
    (integrate s dt ρ g).thrust =
      if s.thrust > 0 ∧ s.fuel_mass > 0 then
        (if max 0 (s.fuel_mass - s.fuel_consumption_rate * dt) ≤ 0 then 0 else s.thrust)
      else s.thrust := by
  simp only [integrate]
  split_ifs <;> rfl

/-- The fuel mass after integrate. -/
theorem integrate_fuel_mass (s : FlightState) (dt ρ g : ℝ) :
    (integrate s dt ρ g).fuel_mass =
      if s.thrust > 0 ∧ s.fuel_mass > 0 then
        max 0 (s.fuel_mass - s.fuel_consumption_rate * dt)
      else s.fuel_mass := by
  simp only [integrate]
  split_ifs <;> rfl

/-- The total mass after integrate. -/
theorem integrate_mass (s : FlightState) (dt ρ g : ℝ) :
    (integrate s dt ρ g).mass =
      if s.thrust > 0 ∧ s.fuel_mass > 0 then
        s.dry_mass + max 0 (s.fuel_mass - s.fuel_consumption_rate * dt)
      else s.dry_mass + s.fuel_mass := by
  simp only [integrate]
  split_ifs <;> rfl

/-- The dry mass is never changed by integrate. -/
theorem integrate_dry_mass (s : FlightState) (dt ρ g : ℝ) :
    (integrate s dt ρ g).dry_mass = s.dry_mass := by
  simp only [integrate]
  split_ifs <;> rfl

/-- The maximal thrust is never changed by integrate. -/
theorem integrate_max_thrust (s : FlightState) (dt ρ g : ℝ) :
    (integrate s dt ρ g).max_thrust = s.max_thrust := by
  simp only [integrate]
  split_ifs <;> rfl

/-- integrate only moves max_q up, to the max with the new dynamic pressure. -/
theorem integrate_max_q_le (s : FlightState) (dt ρ g : ℝ) :
    s.max_q ≤ (integrate s dt ρ g).max_q := by
  simp only [integrate]
  split_ifs <;> exact le_max_left _ _

/-- With zero air density the drag force is the zero vector. -/
theorem calculate_drag_density_zero (s : FlightState) : calculate_drag s 0 = Vec3.zero := by
  simp only [calculate_drag]
  split_ifs with h
  · simp [Vec3.smul, Vec3.zero]
  · rfl

/-- With zero air density the lift force is the zero vector. -/
theorem calculate_lift_density_zero (s : FlightState) : calculate_lift s 0 = Vec3.zero := by
  simp only [calculate_lift]
  split_ifs with h1 h2 h3
  · simp [Vec3.smul, Vec3.zero]
  · rfl
  · rfl
  · rfl

/-- With zero velocity the drag force is the zero vector. -/
theorem calculate_drag_velocity_zero (s : FlightState) (ρ : ℝ) (h : s.velocity = ⟨0, 0, 0⟩) :
    calculate_drag s ρ = Vec3.zero := by
  simp only [calculate_drag, h, Vec3.norm_zero_vec]
  norm_num

/-- With zero velocity the lift force is the zero vector. -/
theorem calculate_lift_velocity_zero (s : FlightState) (ρ : ℝ) (h : s.velocity = ⟨0, 0, 0⟩) :
    calculate_lift s ρ = Vec3.zero := by
  simp only [calculate_lift, h, Vec3.norm_zero_vec]
  norm_num

/-- Python modulo of zero by 360 is zero. -/
theorem pymod_zero : pymod 0 360 = 0 := by
  simp [pymod]

/-- With all three Euler angles zero the rotation takes the body thrust
axis to the world vertical (0, 1, 0). -/
theorem get_thrust_vector_zero_angles (s : FlightState)
    (hp : s.pitch = 0) (hy : s.yaw = 0) (hr : s.roll = 0) :
    get_thrust_vector s = ⟨0, 1, 0⟩ := by
  simp only [get_thrust_vector, get_rotation_matrix, hp, hy, hr, radians]
  norm_num [Mat3.mul, Mat3.mulVec, Mat3.col0, Mat3.col1, Mat3.col2, Vec3.dot]

/-- One integrate call in free fall (zero thrust, zero air density,
positive total mass): gravity is the only force, so the velocity drops by
g * dt in y and the position advances by dt times the new velocity. -/
theorem integrate_freefall (s : FlightState) (dt g : ℝ)
    (hth : s.thrust = 0) (hm : 0 < s.dry_mass + s.fuel_mass) :
    (integrate s dt 0 g).velocity = ⟨s.velocity.x, s.velocity.y - g * dt, s.velocity.z⟩ ∧
    (integrate s dt 0 g).position =
      ⟨s.position.x + dt * s.velocity.x,
       s.position.y + dt * (s.velocity.y - g * dt),
       s.position.z + dt * s.velocity.z⟩ := by
  have hne : s.dry_mass + s.fuel_mass ≠ 0 := ne_of_gt hm
  simp only [integrate, hth, gt_iff_lt, lt_self_iff_false, false_and, if_false,
    calculate_drag_density_zero, calculate_lift_density_zero, if_pos hm]
  simp only [Vec3.add, Vec3.smul, Vec3.zero, Vec3.mk.injEq]
  refine ⟨⟨by ring, ?_, by ring⟩, ⟨by ring, ?_, by ring⟩⟩
  · field_simp
    ring
  · field_simp
    ring

/-- One integrate call with dt = 1, zero air density, a vertical launch
attitude, zero velocity and enough fuel to keep burning: the new vertical
velocity is thrust over the post-burn mass, minus gravity. -/
theorem integrate_powered_vertical (s : FlightState) (g : ℝ)
    (hth : 0 < s.thrust)
    (hp : s.pitch = 0) (hy : s.yaw = 0) (hr : s.roll = 0)
    (hav : s.angular_velocity = ⟨0, 0, 0⟩)
    (hv : s.velocity = ⟨0, 0, 0⟩)
    (hrate : 0 ≤ s.fuel_consumption_rate)
    (hfuel : s.fuel_consumption_rate < s.fuel_mass)
    (hmass : 0 < s.dry_mass + (s.fuel_mass - s.fuel_consumption_rate)) :
    (integrate s 1 0 g).velocity.y =
      s.thrust / (s.dry_mass + (s.fuel_mass - s.fuel_consumption_rate)) - g := by
  have hfu : 0 < s.fuel_mass := lt_of_le_of_lt hrate hfuel
  have hcond : s.thrust > 0 ∧ s.fuel_mass > 0 := ⟨hth, hfu⟩
  have hmax : max 0 (s.fuel_mass - s.fuel_consumption_rate * 1) =
      s.fuel_mass - s.fuel_consumption_rate := by
    rw [mul_one]
    exact max_eq_right (by linarith)
  have h1 : ¬ (s.fuel_mass - s.fuel_consumption_rate ≤ 0) := by
    push_neg
    linarith
  have hmax2 : max 0 (s.fuel_mass - s.fuel_consumption_rate) =
      s.fuel_mass - s.fuel_consumption_rate := max_eq_right (by linarith)
  have h2 : ¬ (s.fuel_mass ≤ s.fuel_consumption_rate) := not_le.mpr hfuel
  have hmass' : s.dry_mass + (s.fuel_mass - s.fuel_consumption_rate) > 0 := hmass
  have hne : s.dry_mass + (s.fuel_mass - s.fuel_consumption_rate) ≠ 0 := ne_of_gt hmass
  simp only [integrate, if_pos hcond, hmax, hmax2, if_neg h1, if_neg h2,
    calculate_drag_density_zero, calculate_lift_density_zero,
    hp, hy, hr, hav, hv, zero_mul, mul_one, add_zero, zero_add, pymod_zero,
    if_pos hmass', get_thrust_vector_zero_angles,
    Vec3.add, Vec3.smul, Vec3.zero]
  field_simp
  ring

/-- Claim C3: for dt ≤ 0 the step is a no-op: every field of the state is
unchanged and the returned telemetry is exactly the telemetry of the
current, unmodified state. -/
theorem c3_degenerate_dt_noop (s : FlightState) (dt ρ g : ℝ) (h : dt ≤ 0) :
    update s dt ρ g = (s, get_telemetry s) := by
  unfold update
  rw [if_pos h]

/-- Witness for C3: dt = 0 on the default state. -/
theorem c3_degenerate_dt_noop_witness :
    (0 : ℝ) ≤ 0 ∧
    update initialState 0 1.225 9.81 = (initialState, get_telemetry initialState) :=
  ⟨le_refl 0, c3_degenerate_dt_noop initialState 0 1.225 9.81 (le_refl 0)⟩

/-- Claim C7: max_q never decreases across one step, for any dt, density
and gravity, hence it is non-decreasing across any sequence of steps. -/
theorem c7_max_q_monotone (s : FlightState) (dt ρ g : ℝ) :
    s.max_q ≤ (update s dt ρ g).1.max_q ∧
    ∀ n : ℕ, s.max_q ≤ (stepN dt ρ g n s).max_q := by
  have single : ∀ t : FlightState, t.max_q ≤ (update t dt ρ g).1.max_q := by
    intro t
    unfold update
    split_ifs with h
    · exact le_refl _
    · show t.max_q ≤ (collide (integrate t dt ρ g)).max_q
      rw [collide_max_q]
      exact integrate_max_q_le t dt ρ g
  refine ⟨single s, ?_⟩
  intro n
  induction n with
  | zero => exact le_refl _
  | succ k ih => exact le_trans ih (single _)

/-- Claim C10: one step either keeps the thrust or zeroes it: the flameout
assignment is the only write.  max_thrust is untouched, so the range
invariant 0 ≤ thrust ≤ max_thrust is preserved by the step. -/
theorem c10_thrust_never_increases (s : FlightState) (dt ρ g : ℝ) :
    ((update s dt ρ g).1.thrust = s.thrust ∨ (update s dt ρ g).1.thrust = 0) ∧
    (update s dt ρ g).1.max_thrust = s.max_thrust ∧
    (0 ≤ s.thrust → s.thrust ≤ s.max_thrust →
      0 ≤ (update s dt ρ g).1.thrust ∧
      (update s dt ρ g).1.thrust ≤ (update s dt ρ g).1.max_thrust) := by
  by_cases h : dt ≤ 0
  · unfold update
    rw [if_pos h]
    exact ⟨Or.inl rfl, rfl, fun h1 h2 => ⟨h1, h2⟩⟩
  · have hfst : (update s dt ρ g).1 = collide (integrate s dt ρ g) :=
      update_fst s dt ρ g (lt_of_not_le h)
    rw [hfst, collide_thrust, collide_max_thrust, integrate_max_thrust, integrate_thrust]
    split_ifs with h1 h2
    · exact ⟨Or.inr rfl, rfl, fun ha hb => ⟨le_refl 0, le_trans ha hb⟩⟩
    · exact ⟨Or.inl rfl, rfl, fun ha hb => ⟨ha, hb⟩⟩
    · exact ⟨Or.inl rfl, rfl, fun ha hb => ⟨ha, hb⟩⟩

/-- Witness for C10: the default state satisfies the range invariant, and
one step preserves it. -/
theorem c10_thrust_never_increases_witness :
    ((0 : ℝ) ≤ initialState.thrust ∧ initialState.thrust ≤ initialState.max_thrust) ∧
    (0 ≤ (update initialState 1 0 9.81).1.thrust ∧
     (update initialState 1 0 9.81).1.thrust ≤ (update initialState 1 0 9.81).1.max_thrust) := by
  have h1 : (0 : ℝ) ≤ initialState.thrust := by norm_num [initialState]
  have h2 : initialState.thrust ≤ initialState.max_thrust := by norm_num [initialState]
  exact ⟨⟨h1, h2⟩, (c10_thrust_never_increases initialState 1 0 9.81).2.2 h1 h2⟩

/-- Claim C1 as stated is false on the code: a state entering the step
with zero fuel but positive thrust (the driver may write thrust between
steps) leaves the step with fuel still zero and thrust still 1000, because
the zeroing assignment lives inside the burn branch, which requires
positive fuel on entry. -/
theorem c1_counterexample :
    (0 : ℝ) < 1 ∧
    (update { initialState with fuel_mass := 0, thrust := 1000 } 1 0 9.81).1.fuel_mass = 0 ∧
    (update { initialState with fuel_mass := 0, thrust := 1000 } 1 0 9.81).1.thrust ≠ 0 := by
  have hfst := update_fst { initialState with fuel_mass := 0, thrust := 1000 } 1 0 9.81 one_pos
  refine ⟨one_pos, ?_, ?_⟩
  · rw [hfst, collide_fuel_mass, integrate_fuel_mass]
    norm_num [initialState]
  · rw [hfst, collide_thrust, integrate_thrust]
    norm_num [initialState]

/-- Claim C1 amended: in a step with dt > 0, (a) if thrust and fuel are
positive on entry and the fuel is zero in the post-state, the thrust is
zero in the post-state (forced flameout); (b) if the thrust is zero on
entry it is zero in the post-state (the core never re-ignites). -/
theorem c1_flameout (s : FlightState) (dt ρ g : ℝ) (hdt : 0 < dt) :
    (0 < s.thrust → 0 < s.fuel_mass → (update s dt ρ g).1.fuel_mass = 0 →
      (update s dt ρ g).1.thrust = 0) ∧
    (s.thrust = 0 → (update s dt ρ g).1.thrust = 0) := by
  have hfst := update_fst s dt ρ g hdt
  rw [hfst, collide_fuel_mass, collide_thrust, integrate_fuel_mass, integrate_thrust]
  constructor
  · intro h1 h2 h3
    rw [if_pos ⟨h1, h2⟩] at h3 ⊢
    rw [if_pos (le_of_eq h3)]
  · intro h0
    rw [if_neg fun hc => absurd hc.1 (by rw [h0]; exact lt_irrefl 0)]
    exact h0

/-- Witness for C1 amended: default state with 1 kg of fuel and burn rate
5: after one second the fuel clamps to 0 and thrust is forced to 0. -/
theorem c1_flameout_witness :
    (0 : ℝ) < 1 ∧
    (0 : ℝ) < FlightState.thrust { initialState with fuel_mass := 1 } ∧
    (0 : ℝ) < FlightState.fuel_mass { initialState with fuel_mass := 1 } ∧
    (update { initialState with fuel_mass := 1 } 1 0 9.81).1.fuel_mass = 0 ∧
    (update { initialState with fuel_mass := 1 } 1 0 9.81).1.thrust = 0 := by
  have hfuel : (update { initialState with fuel_mass := 1 } 1 0 9.81).1.fuel_mass = 0 := by
    rw [update_fst _ 1 0 9.81 one_pos, collide_fuel_mass, integrate_fuel_mass]
    norm_num [initialState]
  refine ⟨one_pos, by norm_num [initialState], by norm_num [initialState], hfuel, ?_⟩
  exact (c1_flameout { initialState with fuel_mass := 1 } 1 0 9.81 one_pos).1
    (by norm_num [initialState]) (by norm_num [initialState]) hfuel

/-- Claim C2 as stated is false on the code: a state entering the step
with negative fuel and no thrust takes the idle branch, which recomputes
the mass but never clamps the fuel, so the post-state fuel is still
negative. -/
theorem c2_counterexample :
    (0 : ℝ) < 1 ∧
    (update { initialState with fuel_mass := -5, thrust := 0 } 1 0 9.81).1.fuel_mass < 0 := by
  refine ⟨one_pos, ?_⟩
  rw [update_fst _ 1 0 9.81 one_pos, collide_fuel_mass, integrate_fuel_mass]
  norm_num [initialState]

/-- Claim C2 amended: in a step with dt > 0 the post-state always
satisfies mass = dry_mass + fuel_mass, and the post-state fuel is
nonnegative whenever the entry fuel is nonnegative (the clamp lives in the
burn branch; the idle branch keeps the fuel unchanged). -/
theorem c2_mass_coupling (s : FlightState) (dt ρ g : ℝ) (hdt : 0 < dt) :
    (update s dt ρ g).1.mass =
      (update s dt ρ g).1.dry_mass + (update s dt ρ g).1.fuel_mass ∧
    (0 ≤ s.fuel_mass → 0 ≤ (update s dt ρ g).1.fuel_mass) := by
  rw [update_fst s dt ρ g hdt, collide_mass, collide_dry_mass, collide_fuel_mass,
    integrate_mass, integrate_dry_mass, integrate_fuel_mass]
  constructor
  · split_ifs <;> rfl
  · intro h
    split_ifs with hc
    · exact le_max_left 0 _
    · exact h

/-- Witness for C2 amended at the default state. -/
theorem c2_mass_coupling_witness :
    (0 : ℝ) < 1 ∧ (0 : ℝ) ≤ initialState.fuel_mass ∧
    (update initialState 1 0 9.81).1.mass =
      (update initialState 1 0 9.81).1.dry_mass + (update initialState 1 0 9.81).1.fuel_mass ∧
    0 ≤ (update initialState 1 0 9.81).1.fuel_mass := by
  have h := c2_mass_coupling initialState 1 0 9.81 one_pos
  exact ⟨one_pos, by norm_num [initialState], h.1, h.2 (by norm_num [initialState])⟩

/-- Claim C6: with zero thrust and zero air density (so drag, lift and the
thrust force vanish and the mass stays constant), after n steps of size
dt > 0 in which the post-Euler height never drops below 0 (no ground
collision), the vertical velocity has decreased by exactly g * n * dt. -/
theorem c6_freefall_conservation (s : FlightState) (dt g : ℝ) (n : ℕ)
    (hth : s.thrust = 0) (hm : 0 < s.dry_mass + s.fuel_mass) (hdt : 0 < dt)
    (hnc : ∀ k, k < n → 0 ≤ (integrate (stepN dt 0 g k s) dt 0 g).position.y) :
    (stepN dt 0 g n s).velocity.y = s.velocity.y - g * n * dt := by
  have main : ∀ m, m ≤ n →
      (stepN dt 0 g m s).thrust = 0 ∧
      (stepN dt 0 g m s).dry_mass + (stepN dt 0 g m s).fuel_mass =
        s.dry_mass + s.fuel_mass ∧
      (stepN dt 0 g m s).velocity.y = s.velocity.y - g * m * dt := by
    intro m
    induction m with
    | zero =>
      intro _
      refine ⟨hth, rfl, ?_⟩
      show s.velocity.y = s.velocity.y - g * ((0 : ℕ) : ℝ) * dt
      push_cast
      ring
    | succ k ih =>
      intro hk
      obtain ⟨ih1, ih2, ih3⟩ := ih (Nat.le_of_succ_le hk)
      have hmt : 0 < (stepN dt 0 g k s).dry_mass + (stepN dt 0 g k s).fuel_mass := by
        rw [ih2]; exact hm
      have hint := integrate_freefall (stepN dt 0 g k s) dt g ih1 hmt
      have hpos : 0 ≤ (integrate (stepN dt 0 g k s) dt 0 g).position.y :=
        hnc k (Nat.lt_of_succ_le hk)
      have hst : stepN dt 0 g (k + 1) s = collide (integrate (stepN dt 0 g k s) dt 0 g) :=
        update_fst (stepN dt 0 g k s) dt 0 g hdt
      have hcol : collide (integrate (stepN dt 0 g k s) dt 0 g) =
          integrate (stepN dt 0 g k s) dt 0 g := collide_of_nonneg _ hpos
      have hcnd : ¬((stepN dt 0 g k s).thrust > 0 ∧ (stepN dt 0 g k s).fuel_mass > 0) := by
        intro hco
        rw [ih1] at hco
        exact lt_irrefl 0 hco.1
      refine ⟨?_, ?_, ?_⟩
      · rw [hst, hcol, integrate_thrust, if_neg hcnd]
        exact ih1
      · rw [hst, hcol, integrate_dry_mass, integrate_fuel_mass, if_neg hcnd]
        exact ih2
      · rw [hst, hcol, hint.1]
        show (stepN dt 0 g k s).velocity.y - g * dt = _
        rw [ih3]
        push_cast
        ring
  exact (main n (le_refl n)).2.2

/-- Witness for C6 (Scenario A): the default state with thrust set to 0;
after one step with dt = 1, air density 0, gravity 9.81, the vertical
velocity is exactly -9.81. -/
theorem c6_freefall_conservation_witness :
    FlightState.thrust { initialState with thrust := 0 } = 0 ∧
    (0 : ℝ) < FlightState.dry_mass { initialState with thrust := 0 } +
      FlightState.fuel_mass { initialState with thrust := 0 } ∧
    (0 : ℝ) < 1 ∧
    (∀ k, k < 1 →
      0 ≤ (integrate (stepN 1 0 9.81 k { initialState with thrust := 0 }) 1 0 9.81).position.y) ∧
    (stepN 1 0 9.81 1 { initialState with thrust := 0 }).velocity.y = -9.81 := by
  have hth : FlightState.thrust { initialState with thrust := 0 } = 0 := rfl
  have hm : (0 : ℝ) < FlightState.dry_mass { initialState with thrust := 0 } +
      FlightState.fuel_mass { initialState with thrust := 0 } := by
    norm_num [initialState]
  have hnc : ∀ k, k < 1 →
      0 ≤ (integrate (stepN 1 0 9.81 k { initialState with thrust := 0 }) 1 0 9.81).position.y := by
    intro k hk
    interval_cases k
    have hint := integrate_freefall { initialState with thrust := 0 } 1 9.81 hth hm
    show 0 ≤ (integrate { initialState with thrust := 0 } 1 0 9.81).position.y
    rw [hint.2]
    norm_num [initialState]
  have h := c6_freefall_conservation { initialState with thrust := 0 } 1 9.81 1 hth hm one_pos hnc
  refine ⟨hth, hm, one_pos, hnc, ?_⟩
  rw [h]
  norm_num [initialState]

/-- Claim C5 (Scenario B): from a vertical-launch state with thrust 75000,
dry plus fuel mass 5000, neutral orientation and zero velocity, one step
with dt = 1, air density 0 and gravity 9.81 gives a vertical velocity of
thrust over the post-burn mass minus gravity; since the burn rate is at
most 5 this is within 0.02 of the quoted 5.19 (which is exact for a zero
burn rate). -/
theorem c5_scenario_b (s : FlightState)
    (h1 : s.thrust = 75000) (h2 : s.dry_mass + s.fuel_mass = 5000)
    (hp : s.pitch = 0) (hy : s.yaw = 0) (hr : s.roll = 0)
    (hav : s.angular_velocity = ⟨0, 0, 0⟩) (hv : s.velocity = ⟨0, 0, 0⟩)
    (hrate0 : 0 ≤ s.fuel_consumption_rate) (hrate5 : s.fuel_consumption_rate ≤ 5)
    (hfuel : s.fuel_consumption_rate < s.fuel_mass) :
    (update s 1 0 9.81).1.velocity.y = 75000 / (5000 - s.fuel_consumption_rate) - 9.81 ∧
    |(update s 1 0 9.81).1.velocity.y - 5.19| ≤ 0.02 := by
  have hmass : 0 < s.dry_mass + (s.fuel_mass - s.fuel_consumption_rate) := by linarith
  have hiv := integrate_powered_vertical s 9.81 (by rw [h1]; norm_num)
    hp hy hr hav hv hrate0 hfuel hmass
  rw [h1, show s.dry_mass + (s.fuel_mass - s.fuel_consumption_rate) =
      5000 - s.fuel_consumption_rate from by linarith] at hiv
  have hpos : (0 : ℝ) < 5000 - s.fuel_consumption_rate := by linarith
  have hlb : (15 : ℝ) ≤ 75000 / (5000 - s.fuel_consumption_rate) := by
    rw [le_div_iff hpos]
    linarith
  have hub : 75000 / (5000 - s.fuel_consumption_rate) ≤ 75000 / 4995 := by
    rw [div_le_div_iff hpos (by norm_num : (0 : ℝ) < 4995)]
    nlinarith
  have hub2 : (75000 : ℝ) / 4995 ≤ 15.02 := by norm_num
  have hvy : (integrate s 1 0 9.81).velocity.y ≥ 0 := by
    rw [hiv]
    linarith
  have hupd : (update s 1 0 9.81).1 = collide (integrate s 1 0 9.81) :=
    update_fst s 1 0 9.81 one_pos
  have hcv : (update s 1 0 9.81).1.velocity = (integrate s 1 0 9.81).velocity := by
    rw [hupd]
    exact collide_velocity_of_nonneg _ hvy
  have hmain : (update s 1 0 9.81).1.velocity.y =
      75000 / (5000 - s.fuel_consumption_rate) - 9.81 := by
    rw [hcv, hiv]
  refine ⟨hmain, ?_⟩
  rw [hmain, abs_le]
  constructor
  · linarith
  · linarith

/-- Witness for C5: the default state already satisfies every hypothesis
of Scenario B (thrust 75000, dry 2000 + fuel 3000 = 5000, burn rate 5). -/
theorem c5_scenario_b_witness :
    initialState.thrust = 75000 ∧
    initialState.dry_mass + initialState.fuel_mass = 5000 ∧
    initialState.fuel_consumption_rate ≤ 5 ∧
    |(update initialState 1 0 9.81).1.velocity.y - 5.19| ≤ 0.02 := by
  refine ⟨by norm_num [initialState], by norm_num [initialState],
    by norm_num [initialState], ?_⟩
  exact (c5_scenario_b initialState (by norm_num [initialState])
    (by norm_num [initialState]) (by norm_num [initialState])
    (by norm_num [initialState]) (by norm_num [initialState])
    (by norm_num [initialState])
    (by norm_num [initialState]) (by norm_num [initialState])
    (by norm_num [initialState]) (by norm_num [initialState])).2

/-- Claim C8: in a step with dt > 0, if the post-Euler state has height
below 0 and downward vertical velocity, the step ends with height 0,
vertical velocity -0.3 times the pre-collision one and both horizontal
components scaled by 0.7; if the height is below 0 but the vertical
velocity is nonnegative, only the height is clamped and the velocity is
unchanged. -/
theorem c8_ground_bounce (s : FlightState) (dt ρ g : ℝ) (hdt : 0 < dt) :
    ((integrate s dt ρ g).position.y < 0 → (integrate s dt ρ g).velocity.y < 0 →
      (update s dt ρ g).1.position.y = 0 ∧
      (update s dt ρ g).1.velocity.y = -(integrate s dt ρ g).velocity.y * 0.3 ∧
      (update s dt ρ g).1.velocity.x = (integrate s dt ρ g).velocity.x * 0.7 ∧
      (update s dt ρ g).1.velocity.z = (integrate s dt ρ g).velocity.z * 0.7) ∧
    ((integrate s dt ρ g).position.y < 0 → 0 ≤ (integrate s dt ρ g).velocity.y →
      (update s dt ρ g).1.position.y = 0 ∧
      (update s dt ρ g).1.velocity = (integrate s dt ρ g).velocity ∧
      (update s dt ρ g).1.position.x = (integrate s dt ρ g).position.x ∧
      (update s dt ρ g).1.position.z = (integrate s dt ρ g).position.z) := by
  rw [update_fst s dt ρ g hdt]
  constructor
  · intro hp hv
    simp only [collide, if_pos hp, if_pos hv]
    exact ⟨trivial, trivial, trivial, trivial⟩
  · intro hp hv
    simp only [collide, if_pos hp, if_neg (not_lt.mpr hv)]
    exact ⟨trivial, trivial, trivial, trivial⟩

/-- Witness for C8: default state with thrust 0 and entry height -5: after
the Euler update the height is -14.81 and the vertical velocity -9.81, so
the step ends on the ground with vertical velocity 2.943 and unchanged
(zero) horizontal velocity. -/
theorem c8_ground_bounce_witness :
    (0 : ℝ) < 1 ∧
    (integrate { initialState with thrust := 0, position := ⟨0, -5, 0⟩ } 1 0 9.81).position.y < 0 ∧
    (integrate { initialState with thrust := 0, position := ⟨0, -5, 0⟩ } 1 0 9.81).velocity.y < 0 ∧
    (update { initialState with thrust := 0, position := ⟨0, -5, 0⟩ } 1 0 9.81).1.position.y = 0 ∧
    (update { initialState with thrust := 0, position := ⟨0, -5, 0⟩ } 1 0 9.81).1.velocity.y = 2.943 := by
  have hint := integrate_freefall { initialState with thrust := 0, position := ⟨0, -5, 0⟩ }
    1 9.81 rfl (by norm_num [initialState])
  have hpy : (integrate { initialState with thrust := 0, position := ⟨0, -5, 0⟩ } 1 0 9.81).position.y < 0 := by
    rw [hint.2]
    norm_num [initialState]
  have hvy : (integrate { initialState with thrust := 0, position := ⟨0, -5, 0⟩ } 1 0 9.81).velocity.y < 0 := by
    rw [hint.1]
    norm_num [initialState]
  obtain ⟨ha, hb, _, _⟩ :=
    (c8_ground_bounce { initialState with thrust := 0, position := ⟨0, -5, 0⟩ } 1 0 9.81 one_pos).1 hpy hvy
  refine ⟨one_pos, hpy, hvy, ha, ?_⟩
  rw [hb, hint.1]
  norm_num [initialState]

/-- Claim C4: telemetry always evaluates its drag, lift and dynamic
pressure at the fixed reference density 1.225 on the post-update state
(dynamic pressure is half of 1.225 times the squared speed); the snapshot
returned by a step is the telemetry of the post-update state, so two steps
whose post-update states agree return identical snapshots regardless of
the air density passed in. -/
theorem c4_telemetry_fixed_density :
    (∀ t : FlightState,
      (get_telemetry t).drag = Vec3.norm (calculate_drag t 1.225) ∧
      (get_telemetry t).lift = Vec3.norm (calculate_lift t 1.225) ∧
      (get_telemetry t).dynamic_pressure = 0.5 * 1.225 * Vec3.dot t.velocity t.velocity) ∧
    (∀ (s : FlightState) (dt ρ g : ℝ),
      (update s dt ρ g).2 = get_telemetry (update s dt ρ g).1) ∧
    (∀ (s : FlightState) (dt ρ ρ' g : ℝ),
      (update s dt ρ g).1 = (update s dt ρ' g).1 →
      (update s dt ρ g).2 = (update s dt ρ' g).2) := by
  refine ⟨?_, ?_, ?_⟩
  · intro t
    refine ⟨rfl, rfl, ?_⟩
    show calculate_dynamic_pressure t 1.225 = 0.5 * 1.225 * Vec3.dot t.velocity t.velocity
    rw [calculate_dynamic_pressure, Vec3.norm_sq]
  · intro s dt ρ g
    exact update_snd s dt ρ g
  · intro s dt ρ ρ' g h
    rw [update_snd, update_snd, h]

/-- Witness for C4: the density-independence clause applied to the default
state, together with the dynamic pressure formula there. -/
theorem c4_telemetry_fixed_density_witness :
    (update initialState 1 0 9.81).1 = (update initialState 1 0 9.81).1 ∧
    (update initialState 1 0 9.81).2 = (update initialState 1 0 9.81).2 ∧
    (get_telemetry initialState).dynamic_pressure =
      0.5 * 1.225 * Vec3.dot initialState.velocity initialState.velocity :=
  ⟨rfl, c4_telemetry_fixed_density.2.2 initialState 1 0 0 9.81 rfl,
    (c4_telemetry_fixed_density.1 initialState).2.2⟩

/-- Lagrange identity for the cross product, written with dot products. -/
theorem Vec3.cross_dot_self (a b : Vec3) :
    Vec3.dot (Vec3.cross a b) (Vec3.cross a b) =
      Vec3.dot a a * Vec3.dot b b - (Vec3.dot a b) ^ 2 := by
  simp only [Vec3.dot, Vec3.cross]
  ring

/-- Claim C9: guards of the lift computation return the zero vector; past
the guards the lift is the stated magnitude times the unit vector along
cross(velocity, c), whose norm is provably positive (cross(v, c) is
orthogonal to v and c is orthogonal to v, so its norm is the product of
the two norms); in every case the lift is orthogonal to the velocity. -/
theorem c9_lift_postcondition (s : FlightState) (ρ : ℝ) :
    (Vec3.norm s.velocity ≤ 1.0 → calculate_lift s ρ = Vec3.zero) ∧
    (Vec3.norm (Vec3.cross (Vec3.smul (1 / Vec3.norm s.velocity) s.velocity)
        (get_thrust_vector s)) ≤ 0.01 → calculate_lift s ρ = Vec3.zero) ∧
    (Vec3.norm s.velocity > 1.0 →
      Vec3.norm (Vec3.cross (Vec3.smul (1 / Vec3.norm s.velocity) s.velocity)
        (get_thrust_vector s)) > 0.01 →
      0 < Vec3.norm (Vec3.cross s.velocity
        (Vec3.cross (Vec3.smul (1 / Vec3.norm s.velocity) s.velocity)
          (get_thrust_vector s))) ∧
      calculate_lift s ρ =
        Vec3.smul
          (0.5 * ρ * Vec3.norm s.velocity ^ 2 *
            |2 * Real.pi * Real.sin (Real.arcsin (min (Vec3.norm
              (Vec3.cross (Vec3.smul (1 / Vec3.norm s.velocity) s.velocity)
                (get_thrust_vector s))) 1.0))| * s.reference_area)
          (Vec3.smul
            (1 / Vec3.norm (Vec3.cross s.velocity
              (Vec3.cross (Vec3.smul (1 / Vec3.norm s.velocity) s.velocity)
                (get_thrust_vector s))))
            (Vec3.cross s.velocity
              (Vec3.cross (Vec3.smul (1 / Vec3.norm s.velocity) s.velocity)
                (get_thrust_vector s))))) ∧
    Vec3.dot (calculate_lift s ρ) s.velocity = 0 := by
  refine ⟨?_, ?_, ?_, ?_⟩
  · intro h
    simp only [calculate_lift]
    rw [if_neg (not_lt.mpr h)]
  · intro h
    by_cases hv : Vec3.norm s.velocity > 1.0
    · simp only [calculate_lift]
      rw [if_pos hv, if_neg (not_lt.mpr h)]
    · simp only [calculate_lift]
      rw [if_neg hv]
  · intro hv hc
    have hdotvc : Vec3.dot s.velocity
        (Vec3.cross (Vec3.smul (1 / Vec3.norm s.velocity) s.velocity)
          (get_thrust_vector s)) = 0 := by
      simp only [Vec3.dot, Vec3.cross, Vec3.smul]
      ring
    have hvv : 1 < Vec3.dot s.velocity s.velocity := by
      nlinarith [Vec3.norm_sq s.velocity, hv]
    have hcc : 0 < Vec3.dot
        (Vec3.cross (Vec3.smul (1 / Vec3.norm s.velocity) s.velocity) (get_thrust_vector s))
        (Vec3.cross (Vec3.smul (1 / Vec3.norm s.velocity) s.velocity) (get_thrust_vector s)) := by
      nlinarith [Vec3.norm_sq (Vec3.cross (Vec3.smul (1 / Vec3.norm s.velocity) s.velocity)
        (get_thrust_vector s)), hc]
    have hdd : 0 < Vec3.dot
        (Vec3.cross s.velocity
          (Vec3.cross (Vec3.smul (1 / Vec3.norm s.velocity) s.velocity) (get_thrust_vector s)))
        (Vec3.cross s.velocity
          (Vec3.cross (Vec3.smul (1 / Vec3.norm s.velocity) s.velocity) (get_thrust_vector s))) := by
      rw [Vec3.cross_dot_self, hdotvc]
      nlinarith
    have hnorm : 0 < Vec3.norm (Vec3.cross s.velocity
        (Vec3.cross (Vec3.smul (1 / Vec3.norm s.velocity) s.velocity)
          (get_thrust_vector s))) := by
      unfold Vec3.norm
      exact Real.sqrt_pos.mpr hdd
    refine ⟨hnorm, ?_⟩
    simp only [calculate_lift]
    rw [if_pos hv, if_pos hc, if_pos hnorm]
  · simp only [calculate_lift]
    split_ifs with h1 h2 h3
    · simp only [Vec3.dot, Vec3.cross, Vec3.smul]
      ring
    · simp [Vec3.zero, Vec3.dot]
    · simp [Vec3.zero, Vec3.dot]
    · simp [Vec3.zero, Vec3.dot]

/-- Witness for C9: the default state has zero velocity, so the first
guard fires and the lift is the zero vector. -/
theorem c9_lift_postcondition_witness :
    Vec3.norm initialState.velocity ≤ 1.0 ∧
    calculate_lift initialState 1.225 = Vec3.zero := by
  have h : Vec3.norm initialState.velocity ≤ 1.0 := by
    norm_num [initialState, Vec3.norm, Vec3.dot, Real.sqrt_zero]
  exact ⟨h, (c9_lift_postcondition initialState 1.225).1 h⟩
